import Mathlib

/-!
Verification of the NL2SQL agent (src/agent.py) against its specification.

The development shallowly embeds the tool functions of `AgentTools` and the
orchestration loop of `NL2SQLAgent.process_question`.  Pure string logic
(the static SQL checks, row counting, control flow of the loop) is embedded
directly from the source.  Boundaries to the outside world (the Azure OpenAI
chat completions, the sqlite database, and the Python `json` module) are
modelled as explicit oracle functions passed in as parameters; an oracle
returning `Except.error e` models the corresponding Python call raising an
exception with message `e`.
-/

namespace NL2SQL

/-- Python whitespace characters stripped by `str.strip()`. -/
def isPySpace (c : Char) : Bool :=
  c == ' ' || c == '\t' || c == '\n' || c == '\r' || c == '\x0b' || c == '\x0c'

/-- Embedding of Python `str.strip()` on the character list. -/
def stripChars (l : List Char) : List Char :=
  ((l.dropWhile isPySpace).reverse.dropWhile isPySpace).reverse

/-- Embedding of Python `str.strip()`. -/
def pyStrip (s : String) : String :=
  ⟨stripChars s.data⟩

/-- Embedding of Python `str.upper()` (ASCII case mapping). -/
def pyUpper (s : String) : String :=
  ⟨s.data.map Char.toUpper⟩

/-- Substring containment on character lists, used to embed the Python
`in` operator on strings. -/
def listContains (needle : List Char) : List Char → Bool
  | [] => needle.isEmpty
  | c :: t => needle.isPrefixOf (c :: t) || listContains needle t

/-- Embedding of the Python expression `needle in hay` on strings. -/
def pyIn (needle hay : String) : Bool :=
  listContains needle.data hay.data

/-- Embedding of Python `s.startswith(pre)`. -/
def pyStartsWith (s pre : String) : Bool :=
  pre.data.isPrefixOf s.data

/-- Embedding of Python `s.count(c)` for a single-character argument. -/
def countChar (c : Char) (s : String) : Nat :=
  s.data.count c

/-- The `dangerous_ops` denylist of `AgentTools.verify_sql_query`. -/
def dangerous_ops : List String :=
  ["DROP", "DELETE", "INSERT", "UPDATE", "ALTER", "CREATE", "TRUNCATE"]

/-- The static stage of `AgentTools.verify_sql_query` (agent.py lines
107-122): the denylist scan over `sql_query.strip().upper()`, the SELECT
prefix check, and the parenthesis balance check, in source order.  Returns
`some err` when the static stage rejects with error string `err`, and
`none` when control reaches the semantic (model) stage. -/
def verifyStatic (sql_query : String) : Option String :=
  let sql_upper := pyUpper (pyStrip sql_query)
  match dangerous_ops.find? (fun op => pyIn op sql_upper) with
  | some op =>
      some ("Error: Dangerous operation detected: " ++ op ++ ". Only SELECT queries are allowed.")
  | none =>
      if !(pyStartsWith sql_upper "SELECT") then
        some "Error: Only SELECT queries are allowed."
      else if countChar '(' sql_query != countChar ')' sql_query then
        some "Error: Mismatched parentheses in SQL query."
      else
        none

/-- Result of one `verify_sql_query` invocation: whether the remote model
was consulted for the semantic stage, and the string the tool returned. -/
structure VerifyResult where
  modelCalled : Bool
  output : String
  deriving Repr

/-- Embedding of `AgentTools.verify_sql_query`.  The semantic stage (the
chat-completion call, the JSON parsing of its judgment and the surrounding
branching) is abstracted by the oracle `model`, which receives the three
source arguments and produces either the semantic-stage output string or an
exception; the catch-all handler of the source turns an exception into the
string `"Error verifying query: " ++ e`. -/
def verify_sql_query (model : String → String → String → Except String String)
    (sql_query schema_info question : String) : VerifyResult :=
  match verifyStatic sql_query with
  | some err => { modelCalled := false, output := err }
  | none =>
      match model sql_query schema_info question with
      | .ok s => { modelCalled := true, output := s }
      | .error e => { modelCalled := true, output := "Error verifying query: " ++ e }

/-- Result of one `execute_sql_query` invocation: whether the statement was
handed to the sqlite connection, and the string the tool returned. -/
structure ExecResult where
  dbCalled : Bool
  output : String
  deriving Repr

/-- Embedding of `AgentTools.execute_sql_query` (agent.py lines 178-200).
The database interaction (connect, execute, fetchall, row conversion and
`json.dumps`) is the oracle `db`, taking the statement and the database
path; an oracle exception is caught by the catch-all handler and becomes
the string `"Error executing query: " ++ e`. -/
def execute_sql_query (db : String → String → Except String String)
    (sql_query database_path : String) : ExecResult :=
  if !(pyStartsWith (pyUpper (pyStrip sql_query)) "SELECT") then
    { dbCalled := false, output := "Error: Only SELECT queries are allowed" }
  else
    { dbCalled := true,
      output :=
        match db sql_query database_path with
        | .ok results => results
        | .error e => "Error executing query: " ++ e }

/-- Embedding of `AgentTools.discover_database_schema`: the whole sqlite
interaction and serialization is the oracle `dbSchema`; its exception is
caught and rendered by the catch-all handler. -/
def discover_database_schema (dbSchema : String → Except String String)
    (database_path : String) : String :=
  match dbSchema database_path with
  | .ok schema_json => schema_json
  | .error e => "Error discovering schema: " ++ e

/-- Embedding of `AgentTools.generate_sql_query`: the chat-completion call
is the oracle `model`; on success the source strips the returned content,
and the catch-all handler renders an exception. -/
def generate_sql_query (model : String → String → Except String String)
    (question schema_info : String) : String :=
  match model question schema_info with
  | .ok content => pyStrip content
  | .error e => "Error generating SQL: " ++ e

/-- Demo semantic oracle used by concrete witnesses: the remote model is
unreachable, so every call raises. -/
def semDemo : String → String → String → Except String String :=
  fun _ _ _ => .error "model unavailable"

/-- Demo database oracle used by concrete witnesses: the database is
unreachable, so every call raises. -/
def dbDemo : String → String → Except String String :=
  fun _ _ => .error "db unavailable"

/-- Claim C5: every statement that, after trimming, does not begin with
SELECT (case-insensitively) is rejected with an error string by the static
stage of `verify_sql_query` (no model call) and by the guard of
`execute_sql_query` (no database call). -/
theorem non_select_rejected_by_verifier_and_executor
    (model : String → String → String → Except String String)
    (db : String → String → Except String String)
    (sql schema_info question database_path : String)
    (h : pyStartsWith (pyUpper (pyStrip sql)) "SELECT" = false) :
    (∃ err, verify_sql_query model sql schema_info question =
      { modelCalled := false, output := err }) ∧
    execute_sql_query db sql database_path =
      { dbCalled := false, output := "Error: Only SELECT queries are allowed" } := by
  constructor
  · cases hfind : dangerous_ops.find? (fun op => pyIn op (pyUpper (pyStrip sql))) with
    | some op =>
        refine ⟨"Error: Dangerous operation detected: " ++ op ++
          ". Only SELECT queries are allowed.", ?_⟩
        simp [verify_sql_query, verifyStatic, hfind]
    | none =>
        refine ⟨"Error: Only SELECT queries are allowed.", ?_⟩
        simp [verify_sql_query, verifyStatic, hfind, h]
  · simp [execute_sql_query, h]

/-- Witness for C5 at the concrete statement `"DELETE FROM t"`. -/
theorem non_select_rejected_by_verifier_and_executor_witness :
    (∃ err, verify_sql_query semDemo "DELETE FROM t" "schema" "q" =
      { modelCalled := false, output := err }) ∧
    execute_sql_query dbDemo "DELETE FROM t" "titanic.db" =
      { dbCalled := false, output := "Error: Only SELECT queries are allowed" } :=
  non_select_rejected_by_verifier_and_executor semDemo dbDemo
    "DELETE FROM t" "schema" "q" "titanic.db" (by decide)

/-- Claim C6: every statement with unequal counts of opening and closing
parentheses is rejected by the static stage of `verify_sql_query` with some
static error string, and the model is not called. -/
theorem unbalanced_parens_rejected_statically
    (model : String → String → String → Except String String)
    (sql schema_info question : String)
    (h : countChar '(' sql ≠ countChar ')' sql) :
    ∃ err, verify_sql_query model sql schema_info question =
      { modelCalled := false, output := err } := by
  cases hfind : dangerous_ops.find? (fun op => pyIn op (pyUpper (pyStrip sql))) with
  | some op =>
      refine ⟨"Error: Dangerous operation detected: " ++ op ++
        ". Only SELECT queries are allowed.", ?_⟩
      simp [verify_sql_query, verifyStatic, hfind]
  | none =>
      by_cases hsw : pyStartsWith (pyUpper (pyStrip sql)) "SELECT" = true
      · refine ⟨"Error: Mismatched parentheses in SQL query.", ?_⟩
        simp [verify_sql_query, verifyStatic, hfind, hsw, bne_iff_ne, h]
      · refine ⟨"Error: Only SELECT queries are allowed.", ?_⟩
        simp only [Bool.not_eq_true] at hsw
        simp [verify_sql_query, verifyStatic, hfind, hsw]

/-- Witness for C6 at the concrete statement `"SELECT (a FROM t"`. -/
theorem unbalanced_parens_rejected_statically_witness :
    ∃ err, verify_sql_query semDemo "SELECT (a FROM t" "schema" "q" =
      { modelCalled := false, output := err } :=
  unbalanced_parens_rejected_statically semDemo "SELECT (a FROM t" "schema" "q" (by decide)

/-- Claim C10: the executor guard checks only the SELECT prefix of the
trimmed uppercased statement and applies neither the denylist nor the
parenthesis check: a statement that begins with SELECT but contains DROP is
accepted by the guard and handed verbatim to the database, and so is a
statement with unbalanced parentheses. -/
theorem executor_guard_checks_only_select_prefix :
    pyIn "DROP" (pyUpper "SELECT * FROM t; DROP TABLE t") = true ∧
    countChar '(' "SELECT (a FROM t" ≠ countChar ')' "SELECT (a FROM t" ∧
    (∀ db, execute_sql_query db "SELECT * FROM t; DROP TABLE t" "titanic.db" =
      { dbCalled := true,
        output :=
          match db "SELECT * FROM t; DROP TABLE t" "titanic.db" with
          | .ok r => r
          | .error e => "Error executing query: " ++ e }) ∧
    (∀ db, (execute_sql_query db "SELECT (a FROM t" "titanic.db").dbCalled = true) := by
  refine ⟨by decide, by decide, fun db => ?_, fun db => ?_⟩
  · have hsw : pyStartsWith (pyUpper (pyStrip "SELECT * FROM t; DROP TABLE t")) "SELECT" = true := by
      decide
    simp [execute_sql_query, hsw]
  · have hsw : pyStartsWith (pyUpper (pyStrip "SELECT (a FROM t")) "SELECT" = true := by
      decide
    simp [execute_sql_query, hsw]

/-- The executable containment test agrees with list infix. -/
theorem listContains_iff (n : List Char) :
    ∀ h : List Char, listContains n h = true ↔ n <:+: h := by
  intro h
  induction h with
  | nil => simp [listContains, List.isEmpty_iff]
  | cons c t ih =>
      simp [listContains, Bool.or_eq_true, ih, List.infix_cons_iff]

/-- An occurrence of a pattern whose characters all falsify `p` survives
the removal of a leading block whose characters all satisfy `p`. -/
theorem infix_of_all_left {p : Char → Bool} :
    ∀ (a : List Char) {op m : List Char}, op ≠ [] → (∀ c ∈ op, p c = false) →
      (∀ c ∈ a, p c = true) → op <:+: a ++ m → op <:+: m := by
  intro a
  induction a with
  | nil =>
      intro op m _ _ _ h
      simpa using h
  | cons c t ih =>
      intro op m hne hop ha h
      rw [List.cons_append] at h
      rcases List.infix_cons_iff.mp h with hpre | hinf
      · cases op with
        | nil => exact absurd rfl hne
        | cons o os =>
            obtain ⟨u, hu⟩ := hpre
            rw [List.cons_append] at hu
            have ho : o = c := by injection hu
            have h1 := hop o (List.mem_cons_self o os)
            have h2 := ha c (List.mem_cons_self c t)
            rw [ho] at h1
            rw [h1] at h2
            cases h2
      · exact ih hne hop (fun x hx => ha x (List.mem_cons_of_mem c hx)) hinf

/-- Decomposition of a character list into the Python-stripped core and
all-whitespace margins. -/
theorem stripChars_decomp (l : List Char) :
    ∃ a b, l = a ++ stripChars l ++ b ∧ (∀ c ∈ a, isPySpace c = true) ∧
      (∀ c ∈ b, isPySpace c = true) := by
  refine ⟨l.takeWhile isPySpace,
    ((l.dropWhile isPySpace).reverse.takeWhile isPySpace).reverse, ?_, ?_, ?_⟩
  · have h2 : l.dropWhile isPySpace =
        stripChars l ++ ((l.dropWhile isPySpace).reverse.takeWhile isPySpace).reverse := by
      calc l.dropWhile isPySpace
          = (l.dropWhile isPySpace).reverse.reverse := (List.reverse_reverse _).symm
        _ = ((l.dropWhile isPySpace).reverse.takeWhile isPySpace ++
              (l.dropWhile isPySpace).reverse.dropWhile isPySpace).reverse := by
              rw [List.takeWhile_append_dropWhile]
        _ = ((l.dropWhile isPySpace).reverse.dropWhile isPySpace).reverse ++
              ((l.dropWhile isPySpace).reverse.takeWhile isPySpace).reverse :=
              List.reverse_append _ _
    calc l = l.takeWhile isPySpace ++ l.dropWhile isPySpace :=
          (List.takeWhile_append_dropWhile isPySpace l).symm
      _ = l.takeWhile isPySpace ++ (stripChars l ++
            ((l.dropWhile isPySpace).reverse.takeWhile isPySpace).reverse) :=
          congrArg (fun x => l.takeWhile isPySpace ++ x) h2
      _ = l.takeWhile isPySpace ++ stripChars l ++
            ((l.dropWhile isPySpace).reverse.takeWhile isPySpace).reverse :=
          (List.append_assoc _ _ _).symm
  · intro c hc
    exact List.mem_takeWhile_imp hc
  · intro c hc
    rw [List.mem_reverse] at hc
    exact List.mem_takeWhile_imp hc

/-- Uppercasing fixes every Python whitespace character. -/
theorem toUpper_of_isPySpace {c : Char} (h : isPySpace c = true) : c.toUpper = c := by
  have hc : c = ' ' ∨ c = '\t' ∨ c = '\n' ∨ c = '\r' ∨ c = '\x0b' ∨ c = '\x0c' := by
    simpa [isPySpace, or_assoc] using h
  rcases hc with h | h | h | h | h | h <;> subst h <;> decide

/-- Uppercasing acts as the identity on an all-whitespace list. -/
theorem map_toUpper_of_all_space {a : List Char} (h : ∀ c ∈ a, isPySpace c = true) :
    a.map Char.toUpper = a := by
  induction a with
  | nil => rfl
  | cons c t ih =>
      rw [List.map_cons, toUpper_of_isPySpace (h c (List.mem_cons_self c t)),
        ih (fun x hx => h x (List.mem_cons_of_mem c hx))]

/-- Every denylisted keyword is nonempty and free of whitespace. -/
theorem dangerous_ops_wf :
    ∀ op ∈ dangerous_ops, op.data ≠ [] ∧ ∀ c ∈ op.data, isPySpace c = false := by
  decide

/-- For a nonempty whitespace-free pattern, containment in the uppercased
text and containment in the uppercased stripped text coincide. -/
theorem pyIn_pyUpper_strip_iff (op sql : String) (hne : op.data ≠ [])
    (hsp : ∀ c ∈ op.data, isPySpace c = false) :
    pyIn op (pyUpper sql) = true ↔ pyIn op (pyUpper (pyStrip sql)) = true := by
  obtain ⟨a, b, hdec, ha, hb⟩ := stripChars_decomp sql.data
  have hmap : sql.data.map Char.toUpper =
      a ++ (stripChars sql.data).map Char.toUpper ++ b := by
    conv_lhs => rw [hdec]
    rw [List.map_append, List.map_append, map_toUpper_of_all_space ha,
      map_toUpper_of_all_space hb]
  constructor
  · intro h
    have h' : op.data <:+: sql.data.map Char.toUpper := (listContains_iff op.data _).mp h
    rw [hmap, List.append_assoc] at h'
    have h1 : op.data <:+: (stripChars sql.data).map Char.toUpper ++ b :=
      infix_of_all_left a hne hsp ha h'
    have h2 : op.data.reverse <:+:
        b.reverse ++ ((stripChars sql.data).map Char.toUpper).reverse := by
      have hr := List.reverse_infix.mpr h1
      rwa [List.reverse_append] at hr
    have hne' : op.data.reverse ≠ [] := by simpa using hne
    have hsp' : ∀ c ∈ op.data.reverse, isPySpace c = false := fun c hc =>
      hsp c (List.mem_reverse.mp hc)
    have hb' : ∀ c ∈ b.reverse, isPySpace c = true := fun c hc =>
      hb c (List.mem_reverse.mp hc)
    have h3 : op.data.reverse <:+: ((stripChars sql.data).map Char.toUpper).reverse :=
      infix_of_all_left b.reverse hne' hsp' hb' h2
    exact (listContains_iff op.data _).mpr (List.reverse_infix.mp h3)
  · intro h
    have h' : op.data <:+: (stripChars sql.data).map Char.toUpper :=
      (listContains_iff op.data _).mp h
    have hsub : (stripChars sql.data).map Char.toUpper <:+: sql.data.map Char.toUpper := by
      rw [hmap]
      exact ⟨a, b, rfl⟩
    exact (listContains_iff op.data _).mpr (h'.trans hsub)

/-- Claim C1: every statement whose uppercased text contains a denylisted
keyword is rejected by the static stage of `verify_sql_query` before any
model call, with an error string naming a denylisted keyword contained in
the statement. -/
theorem denylisted_keyword_rejected_before_model_call
    (model : String → String → String → Except String String)
    (sql schema_info question : String)
    (h : ∃ op ∈ dangerous_ops, pyIn op (pyUpper sql) = true) :
    ∃ err op, verify_sql_query model sql schema_info question =
      { modelCalled := false, output := err } ∧
      op ∈ dangerous_ops ∧ pyIn op (pyUpper sql) = true ∧ pyIn op err = true := by
  obtain ⟨op, hmem, hin⟩ := h
  obtain ⟨hne, hsp⟩ := dangerous_ops_wf op hmem
  have hin' : pyIn op (pyUpper (pyStrip sql)) = true :=
    (pyIn_pyUpper_strip_iff op sql hne hsp).mp hin
  have hsome : (dangerous_ops.find? (fun o => pyIn o (pyUpper (pyStrip sql)))).isSome := by
    rw [List.find?_isSome]
    exact ⟨op, hmem, hin'⟩
  obtain ⟨op₀, hfind⟩ := Option.isSome_iff_exists.mp hsome
  have hpred : pyIn op₀ (pyUpper (pyStrip sql)) = true := by
    simpa using List.find?_some hfind
  have hmem₀ : op₀ ∈ dangerous_ops := List.mem_of_find?_eq_some hfind
  obtain ⟨hne₀, hsp₀⟩ := dangerous_ops_wf op₀ hmem₀
  have hin₀ : pyIn op₀ (pyUpper sql) = true :=
    (pyIn_pyUpper_strip_iff op₀ sql hne₀ hsp₀).mpr hpred
  refine ⟨"Error: Dangerous operation detected: " ++ op₀ ++
    ". Only SELECT queries are allowed.", op₀, ?_, hmem₀, hin₀, ?_⟩
  · simp [verify_sql_query, verifyStatic, hfind]
  · apply (listContains_iff op₀.data _).mpr
    refine ⟨"Error: Dangerous operation detected: ".data,
      ". Only SELECT queries are allowed.".data, ?_⟩
    rw [← String.data_append, ← String.data_append]

/-- Witness for C1 at the concrete statement `"Drop table t"`. -/
theorem denylisted_keyword_rejected_before_model_call_witness :
    ∃ err op, verify_sql_query semDemo "Drop table t" "schema" "q" =
      { modelCalled := false, output := err } ∧
      op ∈ dangerous_ops ∧ pyIn op (pyUpper "Drop table t") = true ∧ pyIn op err = true :=
  denylisted_keyword_rejected_before_model_call semDemo "Drop table t" "schema" "q"
    (by decide)

/-- Values produced by the Python `json` module. -/
inductive Json where
  | null
  | bool (b : Bool)
  | num (n : Int)
  | str (s : String)
  | arr (xs : List Json)
  | obj (fields : List (String × Json))

/-- Python truthiness of a parsed JSON value, as used by the source
expression `1 if parsed_results else 0`. -/
def truthy : Json → Bool
  | .null => false
  | .bool b => b
  | .num n => n != 0
  | .str s => !s.data.isEmpty
  | .arr xs => !xs.isEmpty
  | .obj fs => !fs.isEmpty

/-- The structured response dictionary assembled by
`AgentTools.format_response` and returned by `process_question`. -/
structure StructuredResponse where
  response : String
  sql_query : String
  data_results : Json
  row_count : Nat

/-- Embedding of `AgentTools.format_response` (agent.py lines 202-257).
The chat-completion call is the oracle `fmtModel` (an exception reaches the
outer catch-all handler); `json.loads` on the `results` argument is the
oracle `fmtParse`, whose failure is caught by the inner handler and
replaced by an empty list.  The serialized return value is modelled as the
structured dictionary itself. -/
def format_response (fmtModel : String → String → String → Except String String)
    (fmtParse : String → Option Json)
    (question sql_query results : String) : StructuredResponse :=
  match fmtModel question sql_query results with
  | .error e =>
      { response := "Error formatting response: " ++ e, sql_query := sql_query,
        data_results := Json.arr [], row_count := 0 }
  | .ok content =>
      let natural_language_answer := pyStrip content
      let parsed_results :=
        match fmtParse results with
        | some j => j
        | none => Json.arr []
      let row_count :=
        match parsed_results with
        | Json.arr xs => xs.length
        | j => if truthy j then 1 else 0
      { response := natural_language_answer, sql_query := sql_query,
        data_results := parsed_results, row_count := row_count }

/-- Row count actually computed by the source from the parse outcome: list
length for a list, Python truthiness for everything else, and 0 when the
parse failed (the inner handler substitutes the empty list). -/
def rowCountOfParsed : Option Json → Nat
  | none => 0
  | some (Json.arr xs) => xs.length
  | some j => if truthy j then 1 else 0

/-- Row count as claim C4 words it: 0 when the parse fails or yields an
empty list, 1 for any single non-list item, else the list length. -/
def claimedRowCount : Option Json → Nat
  | none => 0
  | some (Json.arr xs) => xs.length
  | some _ => 1

/-- Counterexample to claim C4 as stated: with the model call succeeding
and the parse of the results string `"0"` yielding the number 0 (a single
non-list item), the source computes `row_count = 0` by Python truthiness
while the claim demands 1. -/
theorem format_response_row_count_claim_counterexample :
    ¬ (∀ (fmtModel : String → String → String → Except String String)
        (fmtParse : String → Option Json) (question sql_query results : String),
        (format_response fmtModel fmtParse question sql_query results).row_count =
          claimedRowCount (fmtParse results)) := by
  intro hclaim
  have h := hclaim (fun _ _ _ => .ok "No rows matched.") (fun _ => some (Json.num 0))
    "q" "SELECT 0" "0"
  exact absurd h (by decide)

/-- Claim C4 amended: when the model call succeeds, `row_count` is 0 on
parse failure, the list length for a parsed list, and for a non-list
parsed value 1 when it is truthy and 0 when it is falsy (null, false, 0,
empty string, empty object); when the model call fails, `row_count` is 0
regardless of the results string. -/
theorem format_response_row_count
    (fmtModel : String → String → String → Except String String)
    (fmtParse : String → Option Json) (question sql_query results : String) :
    (format_response fmtModel fmtParse question sql_query results).row_count =
      match fmtModel question sql_query results with
      | .error _ => 0
      | .ok _ => rowCountOfParsed (fmtParse results) := by
  cases hm : fmtModel question sql_query results with
  | error e => simp [format_response, hm]
  | ok a =>
      cases hp : fmtParse results with
      | none => simp [format_response, hm, hp, rowCountOfParsed]
      | some j => cases j <;> simp [format_response, hm, hp, rowCountOfParsed]

/-- Shared parse oracle for concrete inputs: `json.loads` fails on every
input. -/
def fpNone : String → Option Json := fun _ => none

/-- Counterexample to claim C9 as stated: when the model call succeeds but
the results string fails to parse, the returned structured response carries
the plain model prose, which does not embed any error text. -/
theorem format_response_embeds_error_counterexample :
    ¬ (∀ (fmtModel : String → String → String → Except String String)
        (fmtParse : String → Option Json) (question sql_query results : String),
        ((∃ e, fmtModel question sql_query results = .error e) ∨ fmtParse results = none) →
        (format_response fmtModel fmtParse question sql_query results).data_results =
          Json.arr [] ∧
        pyIn "Error" (format_response fmtModel fmtParse question sql_query results).response =
          true) := by
  intro hclaim
  have h := hclaim (fun _ _ _ => .ok "The answer is 42.") fpNone
    "q" "SELECT 1" "not json" (Or.inr rfl)
  exact absurd h.2 (by decide)

/-- Claim C9 amended: `format_response` always returns a well-formed
structured response and never raises; on a model-call error the response
has empty rows, row count 0, the original SQL text, and an answer text
embedding the error; when the model call succeeds but the results string
fails to parse, the rows are empty and the row count is 0 but the answer
text is the model prose (the parse error is not embedded). -/
theorem format_response_failure_shape
    (fmtModel : String → String → String → Except String String)
    (fmtParse : String → Option Json) (question sql_query results : String) :
    (∀ e, fmtModel question sql_query results = .error e →
      format_response fmtModel fmtParse question sql_query results =
        { response := "Error formatting response: " ++ e, sql_query := sql_query,
          data_results := Json.arr [], row_count := 0 }) ∧
    (∀ a, fmtModel question sql_query results = .ok a → fmtParse results = none →
      format_response fmtModel fmtParse question sql_query results =
        { response := pyStrip a, sql_query := sql_query,
          data_results := Json.arr [], row_count := 0 }) := by
  constructor
  · intro e he
    simp [format_response, he]
  · intro a ha hp
    simp [format_response, ha, hp]

/-- Witness for amended C9 at concrete oracles: a raising model call and,
separately, a successful model call with an unparseable results string. -/
theorem format_response_failure_shape_witness :
    format_response (fun _ _ _ => .error "boom") fpNone "q" "SELECT 1" "rows" =
      { response := "Error formatting response: boom", sql_query := "SELECT 1",
        data_results := Json.arr [], row_count := 0 } ∧
    format_response (fun _ _ _ => .ok " All good. ") fpNone "q" "SELECT 1" "rows" =
      { response := pyStrip " All good. ", sql_query := "SELECT 1",
        data_results := Json.arr [], row_count := 0 } :=
  ⟨(format_response_failure_shape (fun _ _ _ => .error "boom") fpNone
      "q" "SELECT 1" "rows").1 "boom" rfl,
   (format_response_failure_shape (fun _ _ _ => .ok " All good. ") fpNone
      "q" "SELECT 1" "rows").2 " All good. " rfl rfl⟩

/-- A tool call emitted by the driving model.  The `arguments` field holds
the already-parsed JSON argument dictionary (string-keyed, string-valued,
as fixed by the published tool schemas). -/
structure ToolCall where
  id : String
  name : String
  arguments : List (String × String)

/-- One chat-completion response: assistant text plus tool calls. -/
structure ModelMsg where
  content : String
  tool_calls : List ToolCall

/-- A message of the conversation list maintained by `process_question`. -/
structure Message where
  role : String
  name : String
  content : String
  tool_call_id : String
  tool_calls : List ToolCall

/-- The external-world oracles consumed by the tools and the loop: the
database, the model endpoints, and the `json` module at its two parse
sites plus the serialization of the formatted response. -/
structure Env where
  schemaDb : String → Except String String
  genModel : String → String → Except String String
  verifyModel : String → String → String → Except String String
  execDb : String → String → Except String String
  fmtModel : String → String → String → Except String String
  fmtParse : String → Option Json
  captureParse : String → Option StructuredResponse
  dumps : StructuredResponse → String

/-- Embedding of Python `d.get(k, default)` on an argument dictionary. -/
def getArgD (args : List (String × String)) (k d : String) : String :=
  match args.find? (fun kv => kv.1 == k) with
  | some kv => kv.2
  | none => d

/-- The names present in `NL2SQLAgent.function_map`. -/
def knownToolNames : List String :=
  ["discover_database_schema", "generate_sql_query", "verify_sql_query",
   "execute_sql_query", "format_response"]

/-- Dispatch through `NL2SQLAgent.function_map`: `some result` calls the
matching tool, `none` models the `KeyError` a dict lookup on an unknown
name raises.  Keyword binding of `**function_args` is modelled as total
lookup with empty-string default; no claim concerns missing argument
keys. -/
def dispatch (env : Env) (function_name : String)
    (args : List (String × String)) : Option String :=
  if function_name == "discover_database_schema" then
    some (discover_database_schema env.schemaDb (getArgD args "database_path" ""))
  else if function_name == "generate_sql_query" then
    some (generate_sql_query env.genModel (getArgD args "question" "")
      (getArgD args "schema_info" ""))
  else if function_name == "verify_sql_query" then
    some ((verify_sql_query env.verifyModel (getArgD args "sql_query" "")
      (getArgD args "schema_info" "") (getArgD args "question" "")).output)
  else if function_name == "execute_sql_query" then
    some ((execute_sql_query env.execDb (getArgD args "sql_query" "")
      (getArgD args "database_path" "")).output)
  else if function_name == "format_response" then
    some (env.dumps (format_response env.fmtModel env.fmtParse
      (getArgD args "question" "") (getArgD args "sql_query" "")
      (getArgD args "results" "")))
  else
    none

/-- The tool-call block of one loop round (agent.py lines 474-515): each
call is dispatched in order; an unknown name raises (aborting with an
exception modelled as `Except.error`); a `format_response` result is parsed
and retained as the candidate final structured response, with the source
fallback dictionary when that parse raises; every result is appended to the
conversation as a tool-role message. -/
def processToolCalls (env : Env) :
    List ToolCall → List Message → Option StructuredResponse →
      Except String (List Message × Option StructuredResponse)
  | [], messages, captured => .ok (messages, captured)
  | tc :: rest, messages, captured =>
    match dispatch env tc.name tc.arguments with
    | none => .error ("KeyError: " ++ tc.name)
    | some result =>
        let captured' :=
          if tc.name == "format_response" then
            some (match env.captureParse result with
              | some sr => sr
              | none =>
                  { response := result,
                    sql_query := getArgD tc.arguments "sql_query" "N/A",
                    data_results := Json.arr [], row_count := 0 })
          else captured
        processToolCalls env rest
          (messages ++ [⟨"tool", tc.name, result, tc.id, []⟩])
          captured'

/-- The assistant message appended to the conversation each round. -/
def assistantMessage (m : ModelMsg) : Message :=
  { role := "assistant", name := "", content := m.content, tool_call_id := "",
    tool_calls := m.tool_calls }

/-- The fallback dictionary returned when the round budget is exhausted
with no captured structured response (agent.py lines 520-526). -/
def maxIterationsFallback : StructuredResponse :=
  { response := "❌ Maximum iterations (15) reached. Unable to complete the request.",
    sql_query := "N/A", data_results := Json.arr [], row_count := 0 }

/-- The bounded conversation loop of `process_question` (agent.py lines
437-526), with the remaining round budget as fuel.  The driving model is
the `policy` oracle, a function of the full conversation so far. -/
def processLoop (env : Env) (policy : List Message → ModelMsg) :
    Nat → List Message → Option StructuredResponse → Except String StructuredResponse
  | 0, _, captured =>
    .ok (match captured with
         | some sr => sr
         | none => maxIterationsFallback)
  | Nat.succ fuel, messages, captured =>
    let message := policy messages
    let messages' := messages ++ [assistantMessage message]
    if message.tool_calls.isEmpty then
      .ok (match captured with
           | some sr => sr
           | none =>
               { response := message.content, sql_query := "N/A",
                 data_results := Json.arr [], row_count := 0 })
    else
      match processToolCalls env message.tool_calls messages' captured with
      | .error e => .error e
      | .ok (messages'', captured') => processLoop env policy fuel messages'' captured'

/-- The system prompt of `process_question`. -/
def systemPrompt : String :=
  "You are an intelligent NL2SQL assistant that helps users query databases using natural language.\nYou have access to these tools: discover_database_schema, generate_sql_query, verify_sql_query, execute_sql_query, format_response.\nCRITICAL RULE: Your SQL queries must ALWAYS return actual rows, NEVER use COUNT, SUM, AVG or other aggregations.\nIMPORTANT: Always end by calling the format_response tool to provide the final structured response."

/-- The initial conversation of `process_question`. -/
def initialMessages (question database_path : String) : List Message :=
  [{ role := "system", name := "", content := systemPrompt, tool_call_id := "",
     tool_calls := [] },
   { role := "user", name := "",
     content := "Database: " ++ database_path ++ "\nQuestion: " ++ question,
     tool_call_id := "", tool_calls := [] }]

/-- The fixed round budget `max_iterations` of `process_question`. -/
def max_iterations : Nat := 15

/-- Embedding of `NL2SQLAgent.process_question`: run the loop for at most
`max_iterations` rounds from the initial conversation.  `Except.error`
models an uncaught Python exception escaping the method. -/
def process_question (env : Env) (policy : List Message → ModelMsg)
    (question database_path : String) : Except String StructuredResponse :=
  processLoop env policy max_iterations (initialMessages question database_path) none

/-- The conversation and captured structured response after running the
same rounds as `processLoop`, without the terminal plain-text test: used to
name the final loop state when every round emits tool calls. -/
def finalState (env : Env) (policy : List Message → ModelMsg) :
    Nat → List Message → Option StructuredResponse →
      Except String (List Message × Option StructuredResponse)
  | 0, messages, captured => .ok (messages, captured)
  | Nat.succ fuel, messages, captured =>
    let message := policy messages
    let messages' := messages ++ [assistantMessage message]
    match processToolCalls env message.tool_calls messages' captured with
    | .error e => .error e
    | .ok (messages'', captured') => finalState env policy fuel messages'' captured'

/-- One-round unfolding of `processLoop`. -/
theorem processLoop_succ (env : Env) (policy : List Message → ModelMsg)
    (fuel : Nat) (messages : List Message) (captured : Option StructuredResponse) :
    processLoop env policy (fuel + 1) messages captured =
      if (policy messages).tool_calls.isEmpty then
        .ok (match captured with
             | some sr => sr
             | none => { response := (policy messages).content, sql_query := "N/A",
                         data_results := Json.arr [], row_count := 0 })
      else
        match processToolCalls env (policy messages).tool_calls
            (messages ++ [assistantMessage (policy messages)]) captured with
        | .error e => .error e
        | .ok (messages'', captured') => processLoop env policy fuel messages'' captured' :=
  rfl

/-- One-round unfolding of `finalState`. -/
theorem finalState_succ (env : Env) (policy : List Message → ModelMsg)
    (fuel : Nat) (messages : List Message) (captured : Option StructuredResponse) :
    finalState env policy (fuel + 1) messages captured =
      match processToolCalls env (policy messages).tool_calls
          (messages ++ [assistantMessage (policy messages)]) captured with
      | .error e => .error e
      | .ok (messages'', captured') => finalState env policy fuel messages'' captured' :=
  rfl

/-- Dispatch on a name missing from the function map yields no callee. -/
theorem dispatch_eq_none_of_not_known (env : Env) (fname : String)
    (args : List (String × String)) (h : fname ∉ knownToolNames) :
    dispatch env fname args = none := by
  simp only [knownToolNames, List.mem_cons, List.not_mem_nil, or_false, not_or] at h
  obtain ⟨h1, h2, h3, h4, h5⟩ := h
  simp [dispatch, beq_iff_eq, h1, h2, h3, h4, h5]

/-- A fully concrete environment whose external oracles all raise: used by
the concrete counterexamples and witnesses for the loop claims. -/
def envDemo : Env :=
  { schemaDb := fun _ => .error "no db",
    genModel := fun _ _ => .error "no model",
    verifyModel := fun _ _ _ => .error "no model",
    execDb := fun _ _ => .error "db unavailable",
    fmtModel := fun _ _ _ => .error "no model",
    fmtParse := fun _ => none,
    captureParse := fun _ => none,
    dumps := fun _ => "serialized" }

/-- A driving model that always asks for the unknown tool `fetch_data`. -/
def policyUnknownTool : List Message → ModelMsg :=
  fun _ => { content := "", tool_calls := [⟨"call_1", "fetch_data", []⟩] }

/-- Counterexample to claim C2 as stated: with a driving model that emits
the unknown tool name `fetch_data`, `process_question` is aborted by the
uncaught `KeyError` from the function-map lookup; no `ToolNotFoundError`
tool-result message is appended and the loop does not continue. -/
theorem unknown_tool_aborts_loop_counterexample :
    process_question envDemo policyUnknownTool "q" "titanic.db" =
      .error "KeyError: fetch_data" := rfl

/-- Claim C2 amended: when the model emits a ToolCall whose name is not
one of the five known tools, the function-map lookup raises a `KeyError`
that propagates out of `process_question`: the loop aborts with an
exception instead of surfacing a tool-result message. -/
theorem unknown_tool_raises_keyerror (env : Env) (policy : List Message → ModelMsg)
    (question database_path c id₀ fname : String) (args : List (String × String))
    (hpol : policy (initialMessages question database_path) =
      { content := c, tool_calls := [⟨id₀, fname, args⟩] })
    (hname : fname ∉ knownToolNames) :
    process_question env policy question database_path =
      .error ("KeyError: " ++ fname) := by
  have hd := dispatch_eq_none_of_not_known env fname args hname
  unfold process_question
  rw [show max_iterations = 14 + 1 from rfl, processLoop_succ, hpol]
  simp [processToolCalls, hd]

/-- Witness for amended C2 at a concrete environment and policy. -/
theorem unknown_tool_raises_keyerror_witness :
    process_question envDemo policyUnknownTool "q2" "titanic.db" =
      .error "KeyError: fetch_data" :=
  unknown_tool_raises_keyerror envDemo policyUnknownTool "q2" "titanic.db" ""
    "call_1" "fetch_data" [] rfl (by decide)

/-- Claim C3: dispatching any known tool always produces a string result
(every exception inside a tool body is caught by that tool and rendered as
a string, as each tool is total for all oracle outcomes), the result is
appended to the conversation as that tool's tool-role message, and the
tool-call block continues with the remaining calls instead of aborting;
for the executor the result is exactly the output of `execute_sql_query`,
whose catch-all branch renders database exceptions as error strings. -/
theorem known_tool_never_aborts (env : Env) (tc : ToolCall) (rest : List ToolCall)
    (messages : List Message) (captured : Option StructuredResponse)
    (h : tc.name ∈ knownToolNames) :
    ∃ result captured', dispatch env tc.name tc.arguments = some result ∧
      processToolCalls env (tc :: rest) messages captured =
        processToolCalls env rest
          (messages ++ [⟨"tool", tc.name, result, tc.id, []⟩]) captured' ∧
      (tc.name = "execute_sql_query" →
        result = (execute_sql_query env.execDb (getArgD tc.arguments "sql_query" "")
          (getArgD tc.arguments "database_path" "")).output) := by
  simp only [knownToolNames, List.mem_cons, List.not_mem_nil, or_false] at h
  have hsome : ∃ r, dispatch env tc.name tc.arguments = some r := by
    rcases h with h | h | h | h | h <;> rw [h] <;> exact ⟨_, rfl⟩
  obtain ⟨r, hr⟩ := hsome
  refine ⟨r,
    (if tc.name == "format_response" then
       some (match env.captureParse r with
         | some sr => sr
         | none =>
             { response := r, sql_query := getArgD tc.arguments "sql_query" "N/A",
               data_results := Json.arr [], row_count := 0 })
     else captured), hr, ?_, ?_⟩
  · rw [show processToolCalls env (tc :: rest) messages captured =
        (match dispatch env tc.name tc.arguments with
         | none => .error ("KeyError: " ++ tc.name)
         | some result =>
             processToolCalls env rest
               (messages ++ [⟨"tool", tc.name, result, tc.id, []⟩])
               (if tc.name == "format_response" then
                  some (match env.captureParse result with
                    | some sr => sr
                    | none =>
                        { response := result,
                          sql_query := getArgD tc.arguments "sql_query" "N/A",
                          data_results := Json.arr [], row_count := 0 })
                else captured)) from rfl, hr]
  · intro hexec
    rw [hexec] at hr
    have hv : dispatch env "execute_sql_query" tc.arguments =
        some ((execute_sql_query env.execDb (getArgD tc.arguments "sql_query" "")
          (getArgD tc.arguments "database_path" "")).output) := rfl
    rw [hv] at hr
    exact (Option.some.inj hr).symm

/-- Witness for C3: a concrete executor call whose database oracle raises
still yields a string tool result and a continuing tool-call block. -/
theorem known_tool_never_aborts_witness :
    ∃ result captured',
      dispatch envDemo "execute_sql_query"
        [("sql_query", "SELECT 1"), ("database_path", "titanic.db")] = some result ∧
      processToolCalls envDemo
        [⟨"call_exec", "execute_sql_query",
          [("sql_query", "SELECT 1"), ("database_path", "titanic.db")]⟩] [] none =
        processToolCalls envDemo []
          ([] ++ [⟨"tool", "execute_sql_query", result, "call_exec", []⟩]) captured' ∧
      ("execute_sql_query" = "execute_sql_query" →
        result = (execute_sql_query envDemo.execDb
          (getArgD [("sql_query", "SELECT 1"), ("database_path", "titanic.db")]
            "sql_query" "")
          (getArgD [("sql_query", "SELECT 1"), ("database_path", "titanic.db")]
            "database_path" "")).output) :=
  known_tool_never_aborts envDemo
    ⟨"call_exec", "execute_sql_query",
      [("sql_query", "SELECT 1"), ("database_path", "titanic.db")]⟩ [] [] none
    (by decide)

/-- Claim C7: when every round of the driving model emits tool calls (no
terminal plain-text answer), `process_question` runs exactly the
`max_iterations` rounds and returns the structured response captured by the
final loop state when one exists, and otherwise the fallback structured
response with empty rows, row count 0, and an answer text stating that the
iteration budget was exhausted. -/
theorem round_budget_exhausted_result (env : Env) (policy : List Message → ModelMsg)
    (hne : ∀ ms, (policy ms).tool_calls ≠ []) (question database_path : String) :
    process_question env policy question database_path =
      (finalState env policy max_iterations
        (initialMessages question database_path) none).map
        (fun st => match st.2 with
          | some sr => sr
          | none => maxIterationsFallback) ∧
    maxIterationsFallback.data_results = Json.arr [] ∧
    maxIterationsFallback.row_count = 0 ∧
    pyIn "Maximum iterations (15) reached" maxIterationsFallback.response = true := by
  refine ⟨?_, rfl, rfl, by decide⟩
  have key : ∀ fuel messages captured,
      processLoop env policy fuel messages captured =
        (finalState env policy fuel messages captured).map
          (fun st => match st.2 with
            | some sr => sr
            | none => maxIterationsFallback) := by
    intro fuel
    induction fuel with
    | zero =>
        intro messages captured
        cases captured <;> rfl
    | succ fuel ih =>
        intro messages captured
        have hempty : (policy messages).tool_calls.isEmpty = false := by
          rcases hh : (policy messages).tool_calls with _ | ⟨t, ts⟩
          · exact absurd hh (hne messages)
          · rfl
        rw [processLoop_succ, finalState_succ, hempty]
        simp only [Bool.false_eq_true, if_false]
        cases hptc : processToolCalls env (policy messages).tool_calls
            (messages ++ [assistantMessage (policy messages)]) captured with
        | error e => rfl
        | ok st =>
            obtain ⟨m, c⟩ := st
            exact ih m c
  exact key max_iterations (initialMessages question database_path) none

/-- A driving model that always asks for one executor call. -/
def policyExecOnly : List Message → ModelMsg :=
  fun _ => { content := "",
             tool_calls := [⟨"call_exec", "execute_sql_query",
               [("sql_query", "SELECT 1"), ("database_path", "titanic.db")]⟩] }

/-- Witness for C7 at a concrete environment and an always-calling policy. -/
theorem round_budget_exhausted_result_witness :
    process_question envDemo policyExecOnly "q" "titanic.db" =
      (finalState envDemo policyExecOnly max_iterations
        (initialMessages "q" "titanic.db") none).map
        (fun st => match st.2 with
          | some sr => sr
          | none => maxIterationsFallback) ∧
    maxIterationsFallback.data_results = Json.arr [] ∧
    maxIterationsFallback.row_count = 0 ∧
    pyIn "Maximum iterations (15) reached" maxIterationsFallback.response = true :=
  round_budget_exhausted_result envDemo policyExecOnly
    (fun _ => List.cons_ne_nil _ _) "q" "titanic.db"

/-- Claim C8: a round whose model response carries no tool calls terminates
the loop, returning the captured structured response when one exists and
otherwise a minimal structured response built from the plain text with
empty rows and row count zero; a round with tool calls (in particular one
that only calls the Formatter) never terminates the loop by itself — the
loop always continues into the next round. -/
theorem plain_text_round_terminates (env : Env) (policy : List Message → ModelMsg)
    (fuel : Nat) (messages : List Message) (captured : Option StructuredResponse) :
    ((policy messages).tool_calls = [] →
      processLoop env policy (fuel + 1) messages captured =
        .ok (match captured with
             | some sr => sr
             | none => { response := (policy messages).content, sql_query := "N/A",
                         data_results := Json.arr [], row_count := 0 })) ∧
    (∀ messages'' captured', (policy messages).tool_calls ≠ [] →
      processToolCalls env (policy messages).tool_calls
        (messages ++ [assistantMessage (policy messages)]) captured =
        .ok (messages'', captured') →
      processLoop env policy (fuel + 1) messages captured =
        processLoop env policy fuel messages'' captured') := by
  constructor
  · intro h
    simp [processLoop_succ, h]
  · intro m'' c' hne hptc
    have hempty : (policy messages).tool_calls.isEmpty = false := by
      rcases hh : (policy messages).tool_calls with _ | ⟨t, ts⟩
      · exact absurd hh hne
      · rfl
    rw [processLoop_succ, hempty]
    simp only [Bool.false_eq_true, if_false]
    rw [hptc]

/-- A driving model that immediately answers in plain text. -/
def policyPlainText : List Message → ModelMsg :=
  fun _ => { content := "There are 3 rows.", tool_calls := [] }

/-- The conversation produced by one executor round of `policyExecOnly`
against `envDemo`, starting from the empty conversation. -/
def execRoundMessages : List Message :=
  [assistantMessage (policyExecOnly []),
   ⟨"tool", "execute_sql_query", "Error executing query: db unavailable",
     "call_exec", []⟩]

/-- Witness for C8: a concrete plain-text round returns the synthesized
minimal structured response, and a concrete tool-call round continues the
loop. -/
theorem plain_text_round_terminates_witness :
    processLoop envDemo policyPlainText (3 + 1) [] none =
      .ok { response := "There are 3 rows.", sql_query := "N/A",
            data_results := Json.arr [], row_count := 0 } ∧
    processLoop envDemo policyExecOnly (0 + 1) [] none =
      processLoop envDemo policyExecOnly 0 execRoundMessages none :=
  ⟨(plain_text_round_terminates envDemo policyPlainText 3 [] none).1 rfl,
   (plain_text_round_terminates envDemo policyExecOnly 0 [] none).2
     execRoundMessages none (List.cons_ne_nil _ _) rfl⟩

end NL2SQL
